import Mathlib

/-!
Shallow embedding of scripts/validate_resources.py, a validator for the
resources YAML files (talks.yml, papers.yml, tutorials.yml), together with
theorems settling the specification claims about it.

Modelling conventions:
- A parsed YAML document is a value of the inductive type Yaml below
  (mapping keys are modelled as strings, which covers every scalar key the
  validator distinguishes; the artifacts key check on non-string keys is
  therefore trivially true in the model and only the value check remains).
- Paths are modelled as strings (the file field of ValidationError).
- Functions that can raise an uncaught Python exception are modelled in
  Except String; an .error value is an exception escaping the function.
  In particular validate_unique_ids calls it.get on each item, which
  raises AttributeError when an item is not a dict.
- Parsing (load_yaml) is external input; validate_file takes the parse
  outcome as an Except String Yaml argument.
- The Python regex fullmatch-like checks ISO_DATE_RE and REPO_RE are
  modelled character by character; a dollar anchor in Python also matches
  just before one trailing newline, which the model reproduces. The digit
  class is modelled as the ASCII digits.
- The Python repr of values, used in got messages, is modelled by pyRepr
  for the scalar and container shapes the validator can receive (string
  repr is modelled with plain single quotes, without escaping of special
  characters inside the string).
-/

deriving instance DecidableEq for Except

/-- Record of one validation error: source file and human-readable message
(dataclass ValidationError in the source). -/
structure ValidationError where
  file : String
  message : String
deriving DecidableEq, Repr

/-- Generic YAML value tree, as produced by yaml.safe_load: None, bool,
int, float, str, list, dict. Mapping keys are modelled as strings. The
float payload is irrelevant to every check in the validator, so it is
omitted. -/
inductive Yaml where
  | null : Yaml
  | bool (b : Bool) : Yaml
  | int (n : Int) : Yaml
  | float : Yaml
  | str (s : String) : Yaml
  | list (xs : List Yaml) : Yaml
  | map (m : List (String × Yaml)) : Yaml

/-- Association list of string keys to YAML values: the model of a Python
dict produced by the YAML parser. -/
abbrev YMap := List (String × Yaml)

/-- Python isinstance(x, str). -/
def is_str : Yaml → Bool
  | .str _ => true
  | _ => false

/-- Python isinstance(x, int) and not isinstance(x, bool): in the model
bool and int are distinct constructors, so the bool exclusion is the
separate constructor. -/
def is_int : Yaml → Bool
  | .int _ => true
  | _ => false

/-- Python isinstance(x, bool). -/
def is_bool : Yaml → Bool
  | .bool _ => true
  | _ => false

/-- Python isinstance(x, list). -/
def is_list : Yaml → Bool
  | .list _ => true
  | _ => false

/-- Python isinstance(x, dict). -/
def is_dict : Yaml → Bool
  | .map _ => true
  | _ => false

/-- Test for the None value. -/
def Yaml.isNull : Yaml → Bool
  | .null => true
  | _ => false

/-- Name of the Python type of a value, as it appears in an
AttributeError message. -/
def pyTypeName : Yaml → String
  | .null => "NoneType"
  | .bool _ => "bool"
  | .int _ => "int"
  | .float => "float"
  | .str _ => "str"
  | .list _ => "list"
  | .map _ => "dict"

mutual

/-- Python repr of a YAML value, as interpolated by the format strings of
the source (string repr modelled with plain single quotes). -/
def pyRepr : Yaml → String
  | .null => "None"
  | .bool true => "True"
  | .bool false => "False"
  | .int n => toString n
  | .float => "float"
  | .str s => "\x27" ++ s ++ "\x27"
  | .list xs => "[" ++ pyReprItems xs ++ "]"
  | .map m => "\x7b" ++ pyReprPairs m ++ "\x7d"

/-- Comma-separated reprs of the items of a list. -/
def pyReprItems : List Yaml → String
  | [] => ""
  | [x] => pyRepr x
  | x :: y :: rest => pyRepr x ++ ", " ++ pyReprItems (y :: rest)

/-- Comma-separated reprs of the pairs of a dict. -/
def pyReprPairs : List (String × Yaml) → String
  | [] => ""
  | [(k, v)] => "\x27" ++ k ++ "\x27: " ++ pyRepr v
  | (k, v) :: p :: rest => "\x27" ++ k ++ "\x27: " ++ pyRepr v ++ ", " ++ pyReprPairs (p :: rest)

end

/-- Python str of a list of strings, as produced when a sorted enum set is
interpolated into an error message. -/
def pyStrListRepr (xs : List String) : String :=
  pyRepr (.list (xs.map Yaml.str))

/-- Lexicographic comparison of char lists by code point, the Python
string order. -/
def charListLe : List Char → List Char → Bool
  | [], _ => true
  | _ :: _, [] => false
  | a :: as, b :: bs =>
    if a.val < b.val then true
    else if b.val < a.val then false
    else charListLe as bs

/-- Python string less-or-equal. -/
def strLe (a b : String) : Bool := charListLe a.data b.data

/-- Insertion into a sorted list of strings. -/
def insertSorted (a : String) : List String → List String
  | [] => [a]
  | b :: bs => if strLe a b then a :: b :: bs else b :: insertSorted a bs

/-- Python sorted on a collection of strings (insertion sort; the sets
being sorted contain no duplicates, so stability is irrelevant). -/
def sortStrs (xs : List String) : List String := xs.foldr insertSorted []

/-- Python str.strip with empty result test uses this: strip removes
leading and trailing whitespace. Python strips a larger Unicode
whitespace class; the model uses the ASCII whitespace characters. -/
def pyStrip (s : String) : String :=
  String.mk (((s.data.dropWhile Char.isWhitespace).reverse.dropWhile Char.isWhitespace).reverse)

/-- Substring containment on char lists, modelling the Python in operator
on strings. -/
def containsSub (pat : List Char) : List Char → Bool
  | [] => pat.isEmpty
  | c :: t => pat.isPrefixOf (c :: t) || containsSub pat t

/-- Core of ISO_DATE_RE, the pattern of four digits, dash, two digits,
dash, two digits, applied to a whole char list. -/
def isoDateCore : List Char → Bool
  | [y1, y2, y3, y4, '-', m1, m2, '-', d1, d2] =>
    y1.isDigit && y2.isDigit && y3.isDigit && y4.isDigit &&
    m1.isDigit && m2.isDigit && d1.isDigit && d2.isDigit
  | _ => false

/-- Characters allowed in each segment of REPO_RE: ASCII letters, digits,
underscore, dot, dash. -/
def repoChar (c : Char) : Bool :=
  c.isAlpha || c.isDigit || c == '_' || c == '.' || c == '-'

/-- Core of REPO_RE: one or more allowed characters, a slash, one or more
allowed characters, applied to a whole char list. The allowed class
excludes the slash, so the greedy first segment is exact. -/
def repoCore (cs : List Char) : Bool :=
  let s1 := cs.takeWhile repoChar
  let rest := cs.dropWhile repoChar
  !s1.isEmpty &&
    (match rest with
     | '/' :: s2 => !s2.isEmpty && s2.all repoChar
     | _ => false)

/-- Anchored match of a core pattern with the Python dollar semantics: the
dollar also matches just before a single trailing newline. -/
def pyMatchDollar (core : List Char → Bool) (s : String) : Bool :=
  core s.data ||
    (match s.data.getLast? with
     | some c => c == '\n' && core s.data.dropLast
     | none => false)

/-- Match of ISO_DATE_RE against a whole string. -/
def isoDateMatch (s : String) : Bool := pyMatchDollar isoDateCore s

/-- Match of REPO_RE against a whole string. -/
def repoMatch (s : String) : Bool := pyMatchDollar repoCore s

/-- Python key containment test on a dict. -/
def hasKey (m : YMap) (k : String) : Bool := m.any (fun p => p.1 == k)

/-- Python dict.get with default None: value of the first binding of the
key, or null when the key is absent. -/
def mapGet (m : YMap) (k : String) : Yaml :=
  match m.find? (fun p => p.1 == k) with
  | some p => p.2
  | none => .null

/-- Allowed talk status values, in source order. -/
def TALK_STATUS : List String := ["draft", "idea", "planned", "ready", "delivered", "archived"]

/-- Allowed paper status values, in source order. -/
def PAPER_STATUS : List String := ["idea", "in_preparation", "submitted", "accepted", "published", "archived"]

/-- Allowed tutorial status values, in source order. -/
def TUTORIAL_STATUS : List String := ["idea", "planned", "draft", "ready", "archived"]

/-- Allowed tutorial level values, in source order. -/
def TUTORIAL_LEVEL : List String := ["beginner", "intermediate", "advanced"]

/-- Allowed tutorial format values, in source order. -/
def TUTORIAL_FORMAT : List String := ["notebook", "markdown", "workshop"]

/-- Error for a missing required key, as appended by require_keys. -/
def missingKeyErr (file ctx k : String) : ValidationError :=
  ⟨file, ctx ++ (": missing required key \x27" ++ (k ++ "\x27"))⟩

/-- Function require_keys of the source: one error per key of the list
that is absent from the mapping, in key-list order. -/
def require_keys (m : YMap) (keys : List String) (ctx file : String) : List ValidationError :=
  keys.filterMap (fun k => if hasKey m k then none else some (missingKeyErr file ctx k))

/-- Function validate_repo_field of the source. -/
def validate_repo_field (repo : Yaml) (file ctx : String) : List ValidationError :=
  if (match repo with | .str s => repoMatch s | _ => false) then []
  else [⟨file, ctx ++ (": \x27repo\x27 must be \x27org/repo\x27 string (got " ++ (pyRepr repo ++ ")"))⟩]

/-- List whose elements are all strings (the is_list plus all is_str test
of the source). -/
def isListOfStr : Yaml → Bool
  | .list xs => xs.all is_str
  | _ => false

/-- Function validate_tags of the source: None is accepted silently,
otherwise the value must be a list of strings. -/
def validate_tags (tags : Yaml) (file ctx : String) : List ValidationError :=
  match tags with
  | .null => []
  | v =>
    if isListOfStr v then []
    else [⟨file, ctx ++ ": \x27tags\x27 must be a list of strings"⟩]

/-- Function validate_path_field of the source: a non-string or a string
that strips to empty gets the non-empty error and no further check; a
string containing the scheme separator gets the URL error. -/
def validate_path_field (pathValue : Yaml) (file ctx : String) : List ValidationError :=
  match pathValue with
  | .str s =>
    if pyStrip s = "" then [⟨file, ctx ++ ": \x27path\x27 must be a non-empty string"⟩]
    else if containsSub "://".data s.data then
      [⟨file, ctx ++ ": \x27path\x27 should be a repo-relative path, not a URL"⟩]
    else []
  | _ => [⟨file, ctx ++ ": \x27path\x27 must be a non-empty string"⟩]

/-- Duplicate id error, as appended by validate_unique_ids. -/
def dupIdErr (file kind : String) (i : Nat) (s : String) : ValidationError :=
  ⟨file, kind ++ ("[" ++ (Nat.repr i ++ ("]: duplicate id \x27" ++ (s ++ "\x27"))))⟩

/-- AttributeError raised by calling the get method on a non-dict value. -/
def attrGetError (v : Yaml) : String :=
  "AttributeError: \x27" ++ (pyTypeName v ++ "\x27 object has no attribute \x27get\x27")

/-- Loop of validate_unique_ids: index counter, set of already seen string
ids, remaining items. Calling get on a non-dict item raises. -/
def uniqueIdsGo (file kind : String) : Nat → List String → List Yaml → Except String (List ValidationError)
  | _, _, [] => .ok []
  | i, seen, it :: rest =>
    match it with
    | .map m =>
      match mapGet m "id" with
      | .str s =>
        match uniqueIdsGo file kind (i + 1) (s :: seen) rest with
        | .error e => .error e
        | .ok tailErrs => .ok ((if s ∈ seen then [dupIdErr file kind i s] else []) ++ tailErrs)
      | _ => uniqueIdsGo file kind (i + 1) seen rest
    | other => .error (attrGetError other)

/-- Function validate_unique_ids of the source. -/
def validate_unique_ids (items : List Yaml) (file kind : String) : Except String (List ValidationError) :=
  uniqueIdsGo file kind 0 [] items

/-- Check of a string field performed only when the key is present
(pattern: if k in t and not is_str then error). -/
def strFieldIfPresentErrs (m : YMap) (k : String) (file ctx : String) : List ValidationError :=
  if hasKey m k && !is_str (mapGet m k) then
    [⟨file, ctx ++ (": \x27" ++ (k ++ "\x27 must be a string"))⟩]
  else []

/-- Check of an integer field performed only when the key is present
(pattern: if k in t and not is_int then error). -/
def intFieldIfPresentErrs (m : YMap) (k : String) (file ctx : String) : List ValidationError :=
  if hasKey m k && !is_int (mapGet m k) then
    [⟨file, ctx ++ (": \x27" ++ (k ++ "\x27 must be an integer"))⟩]
  else []

/-- Check of the authors field, applied to the get result regardless of
key presence. -/
def authorsErrs (v : Yaml) (file ctx : String) : List ValidationError :=
  if isListOfStr v then []
  else [⟨file, ctx ++ ": \x27authors\x27 must be a list of strings"⟩]

/-- Enum membership test: a string drawn from the allowed collection. -/
def enumOk (allowed : List String) : Yaml → Bool
  | .str s => allowed.contains s
  | _ => false

/-- Enum field check, applied to the get result regardless of key
presence: the message lists the sorted allowed set and echoes the repr of
the offending value. -/
def enumErrs (field : String) (allowed : List String) (v : Yaml) (file ctx : String) : List ValidationError :=
  if enumOk allowed v then []
  else
    [⟨file, ctx ++ (": \x27" ++ (field ++ ("\x27 must be one of " ++
      (pyStrListRepr (sortStrs allowed) ++ (" (got " ++ (pyRepr v ++ ")"))))))⟩]

/-- Check of an optional string field (pattern: if k in t and t k is not
None and not is_str then error). -/
def optStrFieldErrs (m : YMap) (k : String) (file ctx : String) : List ValidationError :=
  if hasKey m k && !(mapGet m k).isNull && !is_str (mapGet m k) then
    [⟨file, ctx ++ (": \x27" ++ (k ++ "\x27 must be a string if present"))⟩]
  else []

/-- Check of the date key of an event mapping, performed only when the
key is present: the value must be a string matching ISO_DATE_RE. -/
def dateErrs (e : YMap) (file ctx : String) : List ValidationError :=
  if hasKey e "date" then
    if (match mapGet e "date" with | .str s => isoDateMatch s | _ => false) then []
    else [⟨file, ctx ++ (": \x27date\x27 must be YYYY-MM-DD (got " ++ (pyRepr (mapGet e "date") ++ ")"))⟩]
  else []

/-- Check of the event value of a talk entry: must be a mapping, whose
required keys and field types are then checked under the dotted context. -/
def validateEvent (v : Yaml) (file ctx : String) : List ValidationError :=
  match v with
  | .map e =>
    require_keys e ["name", "location", "date", "duration_min"] (ctx ++ ".event") file
    ++ strFieldIfPresentErrs e "name" file (ctx ++ ".event")
    ++ strFieldIfPresentErrs e "location" file (ctx ++ ".event")
    ++ dateErrs e file (ctx ++ ".event")
    ++ intFieldIfPresentErrs e "duration_min" file (ctx ++ ".event")
  | _ => [⟨file, ctx ++ ": \x27event\x27 must be a mapping"⟩]

/-- Check of the artifacts value of a talk entry: None is accepted, a
non-dict is one error, and each dict pair whose value is not a string is
one error (keys are strings by the model, so only the value test
remains). -/
def artifactsErrs (v : Yaml) (file ctx : String) : List ValidationError :=
  match v with
  | .null => []
  | .map a =>
    a.filterMap (fun p =>
      if is_str p.2 then none
      else some ⟨file, ctx ++ ".artifacts: keys and values must be strings"⟩)
  | _ => [⟨file, ctx ++ ": \x27artifacts\x27 must be a mapping if present"⟩]

/-- Required keys of a talk entry, in source order. -/
def talksRequiredKeys : List String :=
  ["id", "title", "authors", "role", "event", "path", "tags", "status"]

/-- Context label of the talk entry at an index. -/
def talkCtx (i : Nat) : String := "talks[" ++ (Nat.repr i ++ "]")

/-- Body of the per-entry loop of validate_talks: a non-mapping entry is
one error and no field checks; otherwise the checks run in source order. -/
def validateTalkEntry (file : String) (i : Nat) (t : Yaml) : List ValidationError :=
  match t with
  | .map m =>
    require_keys m talksRequiredKeys (talkCtx i) file
    ++ strFieldIfPresentErrs m "id" file (talkCtx i)
    ++ strFieldIfPresentErrs m "title" file (talkCtx i)
    ++ authorsErrs (mapGet m "authors") file (talkCtx i)
    ++ strFieldIfPresentErrs m "role" file (talkCtx i)
    ++ validateEvent (mapGet m "event") file (talkCtx i)
    ++ validate_path_field (mapGet m "path") file (talkCtx i)
    ++ validate_tags (mapGet m "tags") file (talkCtx i)
    ++ enumErrs "status" TALK_STATUS (mapGet m "status") file (talkCtx i)
    ++ artifactsErrs (mapGet m "artifacts") file (talkCtx i)
    ++ optStrFieldErrs m "notes" file (talkCtx i)
  | _ => [⟨file, talkCtx i ++ ": must be a mapping"⟩]

/-- Enumerated concatenation of per-entry error lists, modelling the
enumerate loop that appends each entry errors in order. -/
def enumFlatMap (f : Nat → Yaml → List ValidationError) : Nat → List Yaml → List ValidationError
  | _, [] => []
  | i, x :: rest => f i x ++ enumFlatMap f (i + 1) rest

/-- Function validate_talks of the source. The uniqueness check runs
before the per-entry loop, so an exception it raises aborts the whole
validation. -/
def validate_talks (data : Yaml) (file : String) : Except String (List ValidationError) :=
  match data with
  | .map d =>
    let repoErrs := validate_repo_field (mapGet d "repo") file "talks.yml"
    match mapGet d "talks" with
    | .list talks =>
      match validate_unique_ids talks file "talks" with
      | .error e => .error e
      | .ok uniq => .ok (repoErrs ++ uniq ++ enumFlatMap (validateTalkEntry file) 0 talks)
    | _ => .ok (repoErrs ++ [⟨file, "talks.yml: \x27talks\x27 must be a list"⟩])
  | _ => .ok [⟨file, "talks.yml: top-level YAML must be a mapping"⟩]

/-- Check of the primary field of a paper, applied to the get result
regardless of key presence. -/
def primaryErrs (v : Yaml) (file ctx : String) : List ValidationError :=
  if is_bool v then []
  else [⟨file, ctx ++ ": \x27primary\x27 must be boolean"⟩]

/-- Check of the related_repos field of a paper, applied to the get
result regardless of key presence. -/
def relatedReposErrs (v : Yaml) (file ctx : String) : List ValidationError :=
  if (match v with
      | .list xs => xs.all (fun r => match r with | .str s => repoMatch s | _ => false)
      | _ => false) then []
  else [⟨file, ctx ++ ": \x27related_repos\x27 must be a list of \x27org/repo\x27 strings"⟩]

/-- Check of the optional tags field of a paper: validate_tags runs only
when the key is present. -/
def paperTagsErrs (m : YMap) (file ctx : String) : List ValidationError :=
  if hasKey m "tags" then validate_tags (mapGet m "tags") file ctx else []

/-- Required keys of a paper entry, in source order. -/
def papersRequiredKeys : List String :=
  ["id", "title", "authors", "year", "venue", "status", "path", "primary", "related_repos"]

/-- Context label of the paper entry at an index. -/
def paperCtx (i : Nat) : String := "papers[" ++ (Nat.repr i ++ "]")

/-- Body of the per-entry loop of validate_papers. -/
def validatePaperEntry (file : String) (i : Nat) (p : Yaml) : List ValidationError :=
  match p with
  | .map m =>
    require_keys m papersRequiredKeys (paperCtx i) file
    ++ strFieldIfPresentErrs m "id" file (paperCtx i)
    ++ strFieldIfPresentErrs m "title" file (paperCtx i)
    ++ authorsErrs (mapGet m "authors") file (paperCtx i)
    ++ intFieldIfPresentErrs m "year" file (paperCtx i)
    ++ strFieldIfPresentErrs m "venue" file (paperCtx i)
    ++ enumErrs "status" PAPER_STATUS (mapGet m "status") file (paperCtx i)
    ++ validate_path_field (mapGet m "path") file (paperCtx i)
    ++ primaryErrs (mapGet m "primary") file (paperCtx i)
    ++ relatedReposErrs (mapGet m "related_repos") file (paperCtx i)
    ++ optStrFieldErrs m "doi" file (paperCtx i)
    ++ optStrFieldErrs m "url" file (paperCtx i)
    ++ optStrFieldErrs m "notes" file (paperCtx i)
    ++ paperTagsErrs m file (paperCtx i)
  | _ => [⟨file, paperCtx i ++ ": must be a mapping"⟩]

/-- Function validate_papers of the source. -/
def validate_papers (data : Yaml) (file : String) : Except String (List ValidationError) :=
  match data with
  | .map d =>
    let repoErrs := validate_repo_field (mapGet d "repo") file "papers.yml"
    match mapGet d "papers" with
    | .list papers =>
      match validate_unique_ids papers file "papers" with
      | .error e => .error e
      | .ok uniq => .ok (repoErrs ++ uniq ++ enumFlatMap (validatePaperEntry file) 0 papers)
    | _ => .ok (repoErrs ++ [⟨file, "papers.yml: \x27papers\x27 must be a list"⟩])
  | _ => .ok [⟨file, "papers.yml: top-level YAML must be a mapping"⟩]

/-- Check of the optional prerequisites field of a tutorial: present and
non-null values must be lists of strings. -/
def prerequisitesErrs (m : YMap) (file ctx : String) : List ValidationError :=
  if hasKey m "prerequisites" && !(mapGet m "prerequisites").isNull then
    if isListOfStr (mapGet m "prerequisites") then []
    else [⟨file, ctx ++ ": \x27prerequisites\x27 must be a list of strings if present"⟩]
  else []

/-- Required keys of a tutorial entry, in source order. -/
def tutorialsRequiredKeys : List String :=
  ["id", "title", "level", "format", "est_time_min", "path", "status", "tags"]

/-- Context label of the tutorial entry at an index. -/
def tutorialCtx (i : Nat) : String := "tutorials[" ++ (Nat.repr i ++ "]")

/-- Body of the per-entry loop of validate_tutorials. -/
def validateTutorialEntry (file : String) (i : Nat) (t : Yaml) : List ValidationError :=
  match t with
  | .map m =>
    require_keys m tutorialsRequiredKeys (tutorialCtx i) file
    ++ strFieldIfPresentErrs m "id" file (tutorialCtx i)
    ++ strFieldIfPresentErrs m "title" file (tutorialCtx i)
    ++ enumErrs "level" TUTORIAL_LEVEL (mapGet m "level") file (tutorialCtx i)
    ++ enumErrs "format" TUTORIAL_FORMAT (mapGet m "format") file (tutorialCtx i)
    ++ intFieldIfPresentErrs m "est_time_min" file (tutorialCtx i)
    ++ validate_path_field (mapGet m "path") file (tutorialCtx i)
    ++ enumErrs "status" TUTORIAL_STATUS (mapGet m "status") file (tutorialCtx i)
    ++ validate_tags (mapGet m "tags") file (tutorialCtx i)
    ++ optStrFieldErrs m "notes" file (tutorialCtx i)
    ++ prerequisitesErrs m file (tutorialCtx i)
  | _ => [⟨file, tutorialCtx i ++ ": must be a mapping"⟩]

/-- Function validate_tutorials of the source. -/
def validate_tutorials (data : Yaml) (file : String) : Except String (List ValidationError) :=
  match data with
  | .map d =>
    let repoErrs := validate_repo_field (mapGet d "repo") file "tutorials.yml"
    match mapGet d "tutorials" with
    | .list tutorials =>
      match validate_unique_ids tutorials file "tutorials" with
      | .error e => .error e
      | .ok uniq => .ok (repoErrs ++ uniq ++ enumFlatMap (validateTutorialEntry file) 0 tutorials)
    | _ => .ok (repoErrs ++ [⟨file, "tutorials.yml: \x27tutorials\x27 must be a list"⟩])
  | _ => .ok [⟨file, "tutorials.yml: top-level YAML must be a mapping"⟩]

/-- Dispatch on the file name, as in validate_file of the source. -/
def validateByName (name : String) (data : Yaml) : Except String (List ValidationError) :=
  if name = "talks.yml" then validate_talks data name
  else if name = "papers.yml" then validate_papers data name
  else if name = "tutorials.yml" then validate_tutorials data name
  else .ok [⟨name, "Unknown resources file (expected talks.yml, papers.yml, tutorials.yml)"⟩]

/-- Function validate_file of the source: a parse failure is one error
and ok false with no further checks; otherwise the dispatched validator
runs and ok is the emptiness of its error list. An exception raised by a
validator escapes, since only load_yaml is inside the try block. -/
def validate_file (name : String) (parsed : Except String Yaml) : Except String (Bool × List ValidationError) :=
  match parsed with
  | .error e => .ok (false, [⟨name, "Failed to parse YAML: " ++ e⟩])
  | .ok data =>
    match validateByName name data with
    | .error e => .error e
    | .ok errs => .ok (errs.isEmpty, errs)

/-- File loop of main: threads the ok_all and any_found flags over the
three targets; a missing file flips ok_all in strict mode, a present file
is validated (an escaping exception aborts the run). -/
def mainLoop (strict : Bool) : List (String × Option (Except String Yaml)) → Bool → Bool → Except String (Bool × Bool)
  | [], okAll, anyFound => .ok (okAll, anyFound)
  | (_, none) :: rest, okAll, anyFound =>
    mainLoop strict rest (if strict then false else okAll) anyFound
  | (name, some parsed) :: rest, okAll, _ =>
    match validate_file name parsed with
    | .error e => .error e
    | .ok (ok, _) => mainLoop strict rest (okAll && ok) true

/-- Function main of the source, over the environment it samples: whether
the resources directory exists and, per target file, whether the file
exists and what it parses to. The result is the process exit code, or the
message of an exception escaping the invocation. -/
def runMain (strict resourcesExists : Bool)
    (talks papers tutorials : Option (Except String Yaml)) : Except String Nat :=
  if resourcesExists then
    match mainLoop strict [("talks.yml", talks), ("papers.yml", papers), ("tutorials.yml", tutorials)] true false with
    | .error e => .error e
    | .ok (okAll, anyFound) =>
      if strict && !anyFound then .ok 2
      else .ok (if okAll then 0 else 1)
  else .ok 2

/-- String id of an item when the item is a mapping whose id value is a
string, as used by the uniqueness invariant. -/
def stringIdOf : Yaml → Option String
  | .map m =>
    match mapGet m "id" with
    | .str s => some s
    | _ => none
  | _ => none

/-- Modelled from the spec: declarative description of the duplicate-id
errors, for comparison with validate_unique_ids. Walking the entries with
the list of string ids of the earlier entries, an entry whose id is a
string occurring among the earlier ids yields exactly one duplicate error
at its own index; entries without a string id are skipped. -/
def dupIdSpecGo (file kind : String) : Nat → List String → List Yaml → List ValidationError
  | _, _, [] => []
  | i, earlier, it :: rest =>
    match stringIdOf it with
    | some s =>
      (if s ∈ earlier then [dupIdErr file kind i s] else [])
        ++ dupIdSpecGo file kind (i + 1) (earlier ++ [s]) rest
    | none => dupIdSpecGo file kind (i + 1) earlier rest

/-- Modelled from the spec: duplicate-id errors of a whole collection. -/
def dupIdSpec (file kind : String) (items : List Yaml) : List ValidationError :=
  dupIdSpecGo file kind 0 [] items

/-- String ids of the mapping items, in order. -/
def stringIdsOf (items : List Yaml) : List String := items.filterMap stringIdOf

/-! String helper lemmas used to distinguish error messages built over a
shared context prefix. -/

/-- Two strings with the same character data are equal. -/
theorem stringDataExt {a b : String} (h : a.data = b.data) : a = b := by
  cases a; cases b; exact congrArg String.mk h

/-- Left cancellation of string concatenation. -/
theorem strAppendCancelLeft {s a b : String} (h : s ++ a = s ++ b) : a = b := by
  have hd := congrArg String.data h
  rw [String.data_append, String.data_append] at hd
  exact stringDataExt (List.append_cancel_left hd)

/-- Right cancellation of string concatenation. -/
theorem strAppendCancelRight {a b s : String} (h : a ++ s = b ++ s) : a = b := by
  have hd := congrArg String.data h
  rw [String.data_append, String.data_append] at hd
  exact stringDataExt (List.append_cancel_right hd)

/-- Taking a short prefix of a concatenation only sees the left part. -/
theorem dataTakeAppend (p x : String) (n : Nat) (hn : n ≤ p.data.length) :
    (p ++ x).data.take n = p.data.take n := by
  rw [String.data_append, List.take_append_of_le_length hn]

/-! Claim C1. -/

/-- Input of the C1 failing scenario: a talks document whose entry list
holds a non-mapping entry followed by a mapping entry. -/
def badTalksData : Yaml :=
  .map [("repo", .str "uibcdf/molsys-ai"),
        ("talks", .list [.str "oops", .map [("id", .str "t1")]])]

/-- C1: the claim states that a non-mapping entry is reported as an error
for that entry, does not block the other entries, and that no exception
escapes the top-level invocation. In the code, validate_unique_ids runs
before the per-entry loop and calls the get method of each item, so the
non-mapping entry raises an AttributeError that is caught nowhere: no
entry error is reported, the sibling entry is never checked, and the
exception escapes validate_talks, validate_file and main. This theorem
evaluates the code at that failing input. -/
theorem nonmapping_entry_raises_uncaught_attribute_error :
    validate_talks badTalksData "talks.yml"
      = .error "AttributeError: \x27str\x27 object has no attribute \x27get\x27"
    ∧ validate_file "talks.yml" (.ok badTalksData)
      = .error "AttributeError: \x27str\x27 object has no attribute \x27get\x27"
    ∧ runMain false true (some (.ok badTalksData)) none none
      = .error "AttributeError: \x27str\x27 object has no attribute \x27get\x27" := by
  refine ⟨by decide, by decide, by decide⟩

/-! Claim C2. -/

/-- Fully conformant single-entry papers document of the C2 scenario. -/
def papersOnlyData : Yaml :=
  .map [("repo", .str "uibcdf/molsys-ai"),
        ("papers", .list [.map [
          ("id", .str "p1"), ("title", .str "T"), ("authors", .list [.str "A"]),
          ("year", .int 2024), ("venue", .str "V"), ("status", .str "published"),
          ("path", .str "papers/p1.md"), ("primary", .bool true),
          ("related_repos", .list [.str "uibcdf/molsys"])]])]

/-- C2 counterexample: with strict mode, an existing resources directory,
a valid papers.yml and the two other target files missing, the exit code
is not 2 as the claim states. -/
theorem strict_two_missing_files_exit_not_two :
    runMain true true none (some (.ok papersOnlyData)) none ≠ .ok 2 := by
  decide

/-- C2 amended: in that scenario the two missing files flip ok_all under
strict mode, but papers.yml was found, so the strict no-files-found exit
path is not taken and the run exits with code 1; papers.yml is still
individually validated and reported as passing. -/
theorem strict_two_missing_files_exit_one :
    runMain true true none (some (.ok papersOnlyData)) none = .ok 1
    ∧ validate_file "papers.yml" (.ok papersOnlyData) = .ok (true, []) := by
  refine ⟨by decide, by decide⟩

/-! Claim C7. -/

/-- Event mapping with all required keys and the given date value. -/
def eventWithDate (d : String) : Yaml :=
  .map [("name", .str "E"), ("location", .str "L"),
        ("duration_min", .int 30), ("date", .str d)]

/-- C7: the ISO-date check is pattern-only, four digits, dash, two
digits, dash, two digits: 2024-01-15 is accepted, 2024-1-15 and
01-15-2024 are rejected with the date-format error, and 2024-01-32 is
accepted since no calendar validity is checked. Both the raw pattern and
the check site inside the event validation are evaluated. -/
theorem iso_date_check_is_pattern_only :
    isoDateMatch "2024-01-15" = true
    ∧ isoDateMatch "2024-1-15" = false
    ∧ isoDateMatch "01-15-2024" = false
    ∧ isoDateMatch "2024-01-32" = true
    ∧ validateEvent (eventWithDate "2024-01-15") "talks.yml" "talks[0]" = []
    ∧ validateEvent (eventWithDate "2024-1-15") "talks.yml" "talks[0]"
        = [⟨"talks.yml", "talks[0].event: \x27date\x27 must be YYYY-MM-DD (got \x272024-1-15\x27)"⟩]
    ∧ validateEvent (eventWithDate "01-15-2024") "talks.yml" "talks[0]"
        = [⟨"talks.yml", "talks[0].event: \x27date\x27 must be YYYY-MM-DD (got \x2701-15-2024\x27)"⟩]
    ∧ validateEvent (eventWithDate "2024-01-32") "talks.yml" "talks[0]" = [] := by
  refine ⟨by decide, by decide, by decide, by decide, by decide, by decide, by decide, by decide⟩

/-! Claim C9. -/

/-- C9: a non-empty repo-relative path produces no error, a string
containing the URI scheme separator produces the URL-likeness error, and
the empty string produces the empty-string error and no other path
error. -/
theorem path_field_examples :
    validate_path_field (.str "tutorials/intro.md") "tutorials.yml" "tutorials[0]" = []
    ∧ validate_path_field (.str "https://example.com/x") "tutorials.yml" "tutorials[0]"
        = [⟨"tutorials.yml", "tutorials[0]: \x27path\x27 should be a repo-relative path, not a URL"⟩]
    ∧ validate_path_field (.str "") "tutorials.yml" "tutorials[0]"
        = [⟨"tutorials.yml", "tutorials[0]: \x27path\x27 must be a non-empty string"⟩] := by
  refine ⟨by decide, by decide, by decide⟩

/-! Claim C10. -/

/-- C10: a non-empty path string consisting solely of whitespace is
rejected with the non-empty-string error, because the emptiness test is
applied to the stripped value. -/
theorem whitespace_only_path_rejected (s file ctx : String)
    (_hne : s.data ≠ []) (hws : s.data.all Char.isWhitespace = true) :
    validate_path_field (.str s) file ctx
      = [⟨file, ctx ++ ": \x27path\x27 must be a non-empty string"⟩] := by
  have hdrop : s.data.dropWhile Char.isWhitespace = [] :=
    List.dropWhile_eq_nil_iff.mpr (fun a ha => List.all_eq_true.mp hws a ha)
  have hstrip : pyStrip s = "" := by
    unfold pyStrip
    rw [hdrop]
    rfl
  simp only [validate_path_field]
  rw [if_pos hstrip]

/-- Witness for C10 at the concrete whitespace-only path. -/
theorem whitespace_only_path_rejected_witness :
    ("   " : String).data ≠ []
    ∧ ("   " : String).data.all Char.isWhitespace = true
    ∧ validate_path_field (.str "   ") "talks.yml" "talks[0]"
        = [⟨"talks.yml", "talks[0]: \x27path\x27 must be a non-empty string"⟩] :=
  ⟨by decide, by decide, whitespace_only_path_rejected "   " "talks.yml" "talks[0]" (by decide) (by decide)⟩

/-! Claim C8. -/

/-- C8: for every enum-valued field of every kind, a value outside the
kind-specific closed set, or a non-string value, produces exactly one
error that names the field, echoes the repr of the offending value, and
lists the full allowed set in sorted order (the sorted sets are spelled
out literally). -/
theorem enum_field_single_sorted_error (file ctx : String) (v : Yaml) :
    (enumOk TALK_STATUS v = false →
      enumErrs "status" TALK_STATUS v file ctx
        = [⟨file, ctx ++ (": \x27" ++ ("status" ++ ("\x27 must be one of " ++
            ("[\x27archived\x27, \x27delivered\x27, \x27draft\x27, \x27idea\x27, \x27planned\x27, \x27ready\x27]"
              ++ (" (got " ++ (pyRepr v ++ ")"))))))⟩])
    ∧ (enumOk PAPER_STATUS v = false →
      enumErrs "status" PAPER_STATUS v file ctx
        = [⟨file, ctx ++ (": \x27" ++ ("status" ++ ("\x27 must be one of " ++
            ("[\x27accepted\x27, \x27archived\x27, \x27idea\x27, \x27in_preparation\x27, \x27published\x27, \x27submitted\x27]"
              ++ (" (got " ++ (pyRepr v ++ ")"))))))⟩])
    ∧ (enumOk TUTORIAL_STATUS v = false →
      enumErrs "status" TUTORIAL_STATUS v file ctx
        = [⟨file, ctx ++ (": \x27" ++ ("status" ++ ("\x27 must be one of " ++
            ("[\x27archived\x27, \x27draft\x27, \x27idea\x27, \x27planned\x27, \x27ready\x27]"
              ++ (" (got " ++ (pyRepr v ++ ")"))))))⟩])
    ∧ (enumOk TUTORIAL_LEVEL v = false →
      enumErrs "level" TUTORIAL_LEVEL v file ctx
        = [⟨file, ctx ++ (": \x27" ++ ("level" ++ ("\x27 must be one of " ++
            ("[\x27advanced\x27, \x27beginner\x27, \x27intermediate\x27]"
              ++ (" (got " ++ (pyRepr v ++ ")"))))))⟩])
    ∧ (enumOk TUTORIAL_FORMAT v = false →
      enumErrs "format" TUTORIAL_FORMAT v file ctx
        = [⟨file, ctx ++ (": \x27" ++ ("format" ++ ("\x27 must be one of " ++
            ("[\x27markdown\x27, \x27notebook\x27, \x27workshop\x27]"
              ++ (" (got " ++ (pyRepr v ++ ")"))))))⟩]) := by
  refine ⟨?_, ?_, ?_, ?_, ?_⟩
  · intro h
    simp only [enumErrs, h, Bool.false_eq_true, if_false]
    rw [show pyStrListRepr (sortStrs TALK_STATUS)
          = "[\x27archived\x27, \x27delivered\x27, \x27draft\x27, \x27idea\x27, \x27planned\x27, \x27ready\x27]" from by decide]
  · intro h
    simp only [enumErrs, h, Bool.false_eq_true, if_false]
    rw [show pyStrListRepr (sortStrs PAPER_STATUS)
          = "[\x27accepted\x27, \x27archived\x27, \x27idea\x27, \x27in_preparation\x27, \x27published\x27, \x27submitted\x27]" from by decide]
  · intro h
    simp only [enumErrs, h, Bool.false_eq_true, if_false]
    rw [show pyStrListRepr (sortStrs TUTORIAL_STATUS)
          = "[\x27archived\x27, \x27draft\x27, \x27idea\x27, \x27planned\x27, \x27ready\x27]" from by decide]
  · intro h
    simp only [enumErrs, h, Bool.false_eq_true, if_false]
    rw [show pyStrListRepr (sortStrs TUTORIAL_LEVEL)
          = "[\x27advanced\x27, \x27beginner\x27, \x27intermediate\x27]" from by decide]
  · intro h
    simp only [enumErrs, h, Bool.false_eq_true, if_false]
    rw [show pyStrListRepr (sortStrs TUTORIAL_FORMAT)
          = "[\x27markdown\x27, \x27notebook\x27, \x27workshop\x27]" from by decide]

/-- Witness for C8: the talk status check at a concrete out-of-set
string value. -/
theorem enum_field_single_sorted_error_witness :
    enumOk TALK_STATUS (.str "bogus") = false
    ∧ enumErrs "status" TALK_STATUS (.str "bogus") "talks.yml" "talks[0]"
        = [⟨"talks.yml", "talks[0]" ++ (": \x27" ++ ("status" ++ ("\x27 must be one of " ++
            ("[\x27archived\x27, \x27delivered\x27, \x27draft\x27, \x27idea\x27, \x27planned\x27, \x27ready\x27]"
              ++ (" (got " ++ (pyRepr (.str "bogus") ++ ")"))))))⟩] :=
  ⟨by decide, (enum_field_single_sorted_error "talks.yml" "talks[0]" (.str "bogus")).1 (by decide)⟩

/-! Claim C6. -/

/-- C6: validate_file returns ok true exactly when its error list is
empty, and a parse failure returns ok false with exactly one error
describing the parse failure, running no further checks. -/
theorem validate_file_ok_iff_no_errors :
    (∀ (name : String) (parsed : Except String Yaml) (b : Bool) (errs : List ValidationError),
      validate_file name parsed = .ok (b, errs) → (b = true ↔ errs = []))
    ∧ (∀ (name e : String),
      validate_file name (.error e) = .ok (false, [⟨name, "Failed to parse YAML: " ++ e⟩])) := by
  constructor
  · intro name parsed b errs h
    cases parsed with
    | error e =>
      simp only [validate_file, Except.ok.injEq, Prod.mk.injEq] at h
      obtain ⟨hb, he⟩ := h
      subst hb; subst he
      simp
    | ok data =>
      simp only [validate_file] at h
      cases hv : validateByName name data with
      | error e => rw [hv] at h; cases h
      | ok l =>
        rw [hv] at h
        simp only [Except.ok.injEq, Prod.mk.injEq] at h
        obtain ⟨hb, he⟩ := h
        subst hb; subst he
        cases l <;> simp
  · intro name e
    rfl

/-- Witness for C6 at a concrete document whose validation fails. -/
theorem validate_file_ok_iff_no_errors_witness :
    (false = true ↔
      ([⟨"talks.yml", "talks.yml: \x27repo\x27 must be \x27org/repo\x27 string (got None)"⟩,
        ⟨"talks.yml", "talks.yml: \x27talks\x27 must be a list"⟩] : List ValidationError) = []) :=
  validate_file_ok_iff_no_errors.1 "talks.yml" (.ok (.map [])) false
    [⟨"talks.yml", "talks.yml: \x27repo\x27 must be \x27org/repo\x27 string (got None)"⟩,
     ⟨"talks.yml", "talks.yml: \x27talks\x27 must be a list"⟩] (by decide)

/-! Claim C4. -/

/-- Fully conformant talk entry carrying an explicit null notes value. -/
def talkWithNullNotes : Yaml :=
  .map [("id", .str "t1"), ("title", .str "T"), ("authors", .list [.str "A"]),
        ("role", .str "speaker"),
        ("event", .map [("name", .str "E"), ("location", .str "L"),
                        ("date", .str "2024-01-15"), ("duration_min", .int 30)]),
        ("path", .str "talks/t1.md"), ("tags", .list [.str "md"]),
        ("status", .str "ready"), ("notes", Yaml.null)]

/-- C4 counterexample: the claim states that an explicit null value for a
present optional field is reported as an error; in the code the None
guard skips the check, so a conformant talk entry with notes null yields
zero errors, and a paper doi bound to null yields no error either. -/
theorem optional_null_not_reported :
    validateTalkEntry "talks.yml" 0 talkWithNullNotes = []
    ∧ optStrFieldErrs [("doi", Yaml.null)] "doi" "papers.yml" "papers[0]" = []
    ∧ prerequisitesErrs [("prerequisites", Yaml.null)] "tutorials.yml" "tutorials[0]" = [] := by
  refine ⟨by decide, by decide, by decide⟩

/-- C4 amended: for each optional field, absence never produces an error
and a present non-null value of the wrong type produces exactly one
error, but an explicit null value is treated like absence and produces no
error. Stated for the optional string fields (notes, doi, url), the
optional papers tags field, and the optional tutorials prerequisites
field. -/
theorem optional_field_checks (m : YMap) (k file ctx : String) (v : Yaml) :
    (hasKey m k = false → optStrFieldErrs m k file ctx = [])
    ∧ ((mapGet m k).isNull = true → optStrFieldErrs m k file ctx = [])
    ∧ (hasKey m k = true → (mapGet m k).isNull = false → is_str (mapGet m k) = false →
        optStrFieldErrs m k file ctx
          = [⟨file, ctx ++ (": \x27" ++ (k ++ "\x27 must be a string if present"))⟩])
    ∧ (is_str (mapGet m k) = true → optStrFieldErrs m k file ctx = [])
    ∧ validate_tags .null file ctx = []
    ∧ (v.isNull = false → isListOfStr v = false →
        validate_tags v file ctx = [⟨file, ctx ++ ": \x27tags\x27 must be a list of strings"⟩])
    ∧ (isListOfStr v = true → validate_tags v file ctx = [])
    ∧ (hasKey m "tags" = false → paperTagsErrs m file ctx = [])
    ∧ (hasKey m "prerequisites" = false → prerequisitesErrs m file ctx = [])
    ∧ ((mapGet m "prerequisites").isNull = true → prerequisitesErrs m file ctx = [])
    ∧ (hasKey m "prerequisites" = true → (mapGet m "prerequisites").isNull = false →
        isListOfStr (mapGet m "prerequisites") = false →
        prerequisitesErrs m file ctx
          = [⟨file, ctx ++ ": \x27prerequisites\x27 must be a list of strings if present"⟩]) := by
  refine ⟨?_, ?_, ?_, ?_, ?_, ?_, ?_, ?_, ?_, ?_, ?_⟩
  · intro h; simp [optStrFieldErrs, h]
  · intro h; simp [optStrFieldErrs, h]
  · intro h1 h2 h3; simp [optStrFieldErrs, h1, h2, h3]
  · intro h; simp [optStrFieldErrs, h]
  · rfl
  · intro h1 h2
    cases v <;> simp_all [validate_tags, Yaml.isNull]
  · intro h
    cases v <;> simp_all [validate_tags, isListOfStr]
  · intro h; simp [paperTagsErrs, h]
  · intro h; simp [prerequisitesErrs, h]
  · intro h; simp [prerequisitesErrs, h]
  · intro h1 h2 h3; simp [prerequisitesErrs, h1, h2, h3]

/-- Witness for C4 at a concrete present, non-null, wrongly typed notes
value. -/
theorem optional_field_checks_witness :
    optStrFieldErrs [("notes", Yaml.int 1)] "notes" "talks.yml" "talks[0]"
      = [⟨"talks.yml", "talks[0]" ++ (": \x27" ++ ("notes" ++ "\x27 must be a string if present"))⟩] :=
  (optional_field_checks [("notes", Yaml.int 1)] "notes" "talks.yml" "talks[0]" Yaml.null).2.2.1
    (by decide) (by decide) (by decide)

/-! Claim C5. -/

/-- An item with a string id is a mapping. -/
theorem is_dict_of_stringIdOf_isSome {it : Yaml} (h : (stringIdOf it).isSome = true) :
    is_dict it = true := by
  cases it <;> simp_all [stringIdOf, is_dict]

/-- The uniqueness loop agrees with the declarative duplicate description
whenever all items are mappings, for any pair of membership-equivalent
seen and earlier lists. -/
theorem uniqueIdsGo_eq_spec (file kind : String) :
    ∀ (items : List Yaml) (i : Nat) (seen earlier : List String),
      (∀ x, x ∈ seen ↔ x ∈ earlier) → items.all is_dict = true →
      uniqueIdsGo file kind i seen items = .ok (dupIdSpecGo file kind i earlier items) := by
  intro items
  induction items with
  | nil => intro i seen earlier _ _; rfl
  | cons it rest ih =>
    intro i seen earlier hiff hall
    rw [List.all_cons, Bool.and_eq_true] at hall
    obtain ⟨hd, hrest⟩ := hall
    cases it with
    | map m =>
      cases hid : mapGet m "id" with
      | str s =>
        have hiff2 : ∀ x, x ∈ s :: seen ↔ x ∈ earlier ++ [s] := by
          intro x
          simp [List.mem_cons, List.mem_append, hiff x, or_comm]
        have hcond : (s ∈ seen) = (s ∈ earlier) := propext (hiff s)
        simp only [uniqueIdsGo, hid, ih (i + 1) (s :: seen) (earlier ++ [s]) hiff2 hrest,
                   dupIdSpecGo, stringIdOf, hcond]
      | null =>
        simp only [uniqueIdsGo, hid, dupIdSpecGo, stringIdOf]
        exact ih (i + 1) seen earlier hiff hrest
      | bool b =>
        simp only [uniqueIdsGo, hid, dupIdSpecGo, stringIdOf]
        exact ih (i + 1) seen earlier hiff hrest
      | int n =>
        simp only [uniqueIdsGo, hid, dupIdSpecGo, stringIdOf]
        exact ih (i + 1) seen earlier hiff hrest
      | float =>
        simp only [uniqueIdsGo, hid, dupIdSpecGo, stringIdOf]
        exact ih (i + 1) seen earlier hiff hrest
      | list xs =>
        simp only [uniqueIdsGo, hid, dupIdSpecGo, stringIdOf]
        exact ih (i + 1) seen earlier hiff hrest
      | map m2 =>
        simp only [uniqueIdsGo, hid, dupIdSpecGo, stringIdOf]
        exact ih (i + 1) seen earlier hiff hrest
    | null => simp [is_dict] at hd
    | bool b => simp [is_dict] at hd
    | int n => simp [is_dict] at hd
    | float => simp [is_dict] at hd
    | str s => simp [is_dict] at hd
    | list xs => simp [is_dict] at hd

/-- The declarative duplicate description is empty when the string ids of
the items avoid the earlier ids and repeat nowhere. -/
theorem dupIdSpecGo_eq_nil (file kind : String) :
    ∀ (items : List Yaml) (i : Nat) (earlier : List String),
      (∀ s ∈ stringIdsOf items, s ∉ earlier) → (stringIdsOf items).Nodup →
      dupIdSpecGo file kind i earlier items = [] := by
  intro items
  induction items with
  | nil => intro i earlier _ _; rfl
  | cons it rest ih =>
    intro i earlier havoid hnd
    cases hid : stringIdOf it with
    | some s =>
      have hids : stringIdsOf (it :: rest) = s :: stringIdsOf rest := by
        simp [stringIdsOf, List.filterMap_cons, hid]
      rw [hids] at havoid hnd
      rw [List.nodup_cons] at hnd
      obtain ⟨hsnot, hndrest⟩ := hnd
      have hs : s ∉ earlier := havoid s (List.mem_cons_self s _)
      have havoid2 : ∀ t ∈ stringIdsOf rest, t ∉ earlier ++ [s] := by
        intro t ht
        rw [List.mem_append, List.mem_singleton]
        rintro (h1 | rfl)
        · exact havoid t (List.mem_cons_of_mem _ ht) h1
        · exact hsnot ht
      simp only [dupIdSpecGo, hid, if_neg hs, List.nil_append]
      exact ih (i + 1) (earlier ++ [s]) havoid2 hndrest
    | none =>
      have hids : stringIdsOf (it :: rest) = stringIdsOf rest := by
        simp [stringIdsOf, List.filterMap_cons, hid]
      rw [hids] at havoid hnd
      simp only [dupIdSpecGo, hid]
      exact ih (i + 1) earlier havoid hnd

/-- Fully conformant talk entry with id a, used to show that a duplicate
id does not stop the remaining checks. -/
def talkA : Yaml :=
  .map [("id", .str "a"), ("title", .str "T"), ("authors", .list [.str "A"]),
        ("role", .str "speaker"),
        ("event", .map [("name", .str "E"), ("location", .str "L"),
                        ("date", .str "2024-01-15"), ("duration_min", .int 30)]),
        ("path", .str "talks/a.md"), ("tags", .list [.str "md"]),
        ("status", .str "ready")]

/-- Talks document whose second entry repeats the id of the first. -/
def dupTalksData : Yaml :=
  .map [("repo", .str "uibcdf/molsys-ai"),
        ("talks", .list [talkA, .map [("id", .str "a")]])]

/-- C5: over mapping entries, a collection whose entries all carry
distinct string ids yields no duplicate error; in general the uniqueness
check produces exactly one duplicate error per occurrence whose string id
already appeared among the string ids of the earlier entries, reported at
the later index, with entries lacking a string id skipped (the
declarative description dupIdSpec); and a duplicate does not stop the
remaining checks, as the concrete duplicated collection shows: the
per-entry errors of the second entry follow the duplicate error. -/
theorem unique_ids_characterization :
    (∀ (items : List Yaml) (file kind : String),
      items.all (fun it => (stringIdOf it).isSome) = true →
      (stringIdsOf items).Nodup →
      validate_unique_ids items file kind = .ok [])
    ∧ (∀ (items : List Yaml) (file kind : String),
      items.all is_dict = true →
      validate_unique_ids items file kind = .ok (dupIdSpec file kind items))
    ∧ validate_talks dupTalksData "talks.yml"
        = .ok ([⟨"talks.yml", "talks[1]: duplicate id \x27a\x27"⟩,
                ⟨"talks.yml", "talks[1]: missing required key \x27title\x27"⟩,
                ⟨"talks.yml", "talks[1]: missing required key \x27authors\x27"⟩,
                ⟨"talks.yml", "talks[1]: missing required key \x27role\x27"⟩,
                ⟨"talks.yml", "talks[1]: missing required key \x27event\x27"⟩,
                ⟨"talks.yml", "talks[1]: missing required key \x27path\x27"⟩,
                ⟨"talks.yml", "talks[1]: missing required key \x27tags\x27"⟩,
                ⟨"talks.yml", "talks[1]: missing required key \x27status\x27"⟩,
                ⟨"talks.yml", "talks[1]: \x27authors\x27 must be a list of strings"⟩,
                ⟨"talks.yml", "talks[1]: \x27event\x27 must be a mapping"⟩,
                ⟨"talks.yml", "talks[1]: \x27path\x27 must be a non-empty string"⟩,
                ⟨"talks.yml", "talks[1]: \x27status\x27 must be one of [\x27archived\x27, \x27delivered\x27, \x27draft\x27, \x27idea\x27, \x27planned\x27, \x27ready\x27] (got None)"⟩]) := by
  refine ⟨?_, ?_, by decide⟩
  · intro items file kind hsome hnd
    have hall : items.all is_dict = true := by
      rw [List.all_eq_true] at hsome ⊢
      exact fun it hit => is_dict_of_stringIdOf_isSome (hsome it hit)
    have h2 := uniqueIdsGo_eq_spec file kind items 0 [] [] (by simp) hall
    have h3 := dupIdSpecGo_eq_nil file kind items 0 []
      (fun s _ h => by cases h) hnd
    rw [validate_unique_ids, h2, h3]
  · intro items file kind hall
    exact uniqueIdsGo_eq_spec file kind items 0 [] [] (by simp) hall

/-- Witness for C5 at a concrete collection containing one duplicated
string id among mapping entries. -/
theorem unique_ids_characterization_witness :
    ([Yaml.map [("id", Yaml.str "a")], Yaml.map [("id", Yaml.str "b")],
      Yaml.map [("id", Yaml.str "a")]].all is_dict = true)
    ∧ validate_unique_ids
        [Yaml.map [("id", Yaml.str "a")], Yaml.map [("id", Yaml.str "b")],
         Yaml.map [("id", Yaml.str "a")]] "talks.yml" "talks"
      = .ok (dupIdSpec "talks.yml" "talks"
          [Yaml.map [("id", Yaml.str "a")], Yaml.map [("id", Yaml.str "b")],
           Yaml.map [("id", Yaml.str "a")]]) :=
  ⟨by decide,
   unique_ids_characterization.2.1
     [Yaml.map [("id", Yaml.str "a")], Yaml.map [("id", Yaml.str "b")],
      Yaml.map [("id", Yaml.str "a")]] "talks.yml" "talks" (by decide)⟩

/-! Claim C3: counting machinery. Every error message of an entry is the
entry context followed by a suffix, and the suffix of a missing-key error
starts with colon, space, m, while every other check produces suffixes
starting differently; comparing the first three characters separates
them. -/

/-- A missing-key message determines its key. -/
theorem missingKeyErr_inj {file ctx k k' : String}
    (h : missingKeyErr file ctx k = missingKeyErr file ctx k') : k = k' := by
  have hm : ctx ++ (": missing required key \x27" ++ (k ++ "\x27"))
      = ctx ++ (": missing required key \x27" ++ (k' ++ "\x27")) :=
    congrArg ValidationError.message h
  exact strAppendCancelRight (strAppendCancelLeft (strAppendCancelLeft hm))

/-- The suffix of a missing-key message starts with colon, space, m. -/
theorem missing_suffix_take :
    ∀ k : String, (": missing required key \x27" ++ (k ++ "\x27")).data.take 3 = [':', ' ', 'm'] := by
  intro k
  rw [dataTakeAppend _ _ 3 (by decide)]
  decide

/-- A list of errors whose suffixes do not start with colon, space, m
contains no missing-key error. -/
theorem count_zero_of_shapes {l : List ValidationError} {file ctx k : String}
    (hl : ∀ e ∈ l, ∃ X, e.message = ctx ++ X ∧ X.data.take 3 ≠ [':', ' ', 'm']) :
    l.count (missingKeyErr file ctx k) = 0 := by
  rw [List.count_eq_zero]
  intro hmem
  obtain ⟨X, hmsg, hX⟩ := hl _ hmem
  have hTX : (": missing required key \x27" ++ (k ++ "\x27")) = X := strAppendCancelLeft hmsg
  exact hX (hTX ▸ missing_suffix_take k)

/-- In a key list avoiding the key, require_keys contributes no
missing-key error for that key. -/
theorem count_require_keys_notmem (m : YMap) (ctx file k : String) :
    ∀ keys : List String, k ∉ keys →
      (require_keys m keys ctx file).count (missingKeyErr file ctx k) = 0 := by
  intro keys
  induction keys with
  | nil => intro _; rfl
  | cons k0 ks ih =>
    intro hk
    rw [List.mem_cons, not_or] at hk
    obtain ⟨hne, hks⟩ := hk
    unfold require_keys at *
    rw [List.filterMap_cons]
    cases hhk : hasKey m k0 with
    | true => simp only [hhk, if_true]; exact ih hks
    | false =>
      simp only [hhk, Bool.false_eq_true, if_false]
      have hne2 : missingKeyErr file ctx k0 ≠ missingKeyErr file ctx k :=
        fun h => hne (missingKeyErr_inj h).symm
      rw [List.count_cons_of_ne (fun h => hne2 h.symm)]
      exact ih hks

/-- In a duplicate-free key list containing the key of an absent field,
require_keys contributes exactly one missing-key error for that key. -/
theorem count_require_keys_mem (m : YMap) (ctx file k : String) :
    ∀ keys : List String, k ∈ keys → keys.Nodup → hasKey m k = false →
      (require_keys m keys ctx file).count (missingKeyErr file ctx k) = 1 := by
  intro keys
  induction keys with
  | nil => intro hmem; cases hmem
  | cons k0 ks ih =>
    intro hmem hnd habs
    rw [List.nodup_cons] at hnd
    obtain ⟨hk0nin, hndks⟩ := hnd
    unfold require_keys at *
    rw [List.filterMap_cons]
    by_cases hk : k0 = k
    · subst hk
      simp only [habs, Bool.false_eq_true, if_false]
      have h0 := count_require_keys_notmem m ctx file k0 ks hk0nin
      unfold require_keys at h0
      rw [List.count_cons_self, h0]
    · have hmem2 : k ∈ ks := by
        rcases List.mem_cons.mp hmem with h | h
        · exact absurd h.symm hk
        · exact h
      cases hhk : hasKey m k0 with
      | true => simp only [hhk, if_true]; exact ih hmem2 hndks habs
      | false =>
        simp only [hhk, Bool.false_eq_true, if_false]
        have hne2 : missingKeyErr file ctx k0 ≠ missingKeyErr file ctx k :=
          fun h => hk (missingKeyErr_inj h)
        rw [List.count_cons_of_ne (fun h => hne2 h.symm)]
        exact ih hmem2 hndks habs

/-- Errors of require_keys are the context followed by a suffix. -/
theorem require_keys_shape {e : ValidationError} {m : YMap} {keys : List String} {ctx file : String}
    (h : e ∈ require_keys m keys ctx file) : ∃ X, e.message = ctx ++ X := by
  unfold require_keys at h
  obtain ⟨k, _, hsome⟩ := List.mem_filterMap.mp h
  split at hsome
  · cases hsome
  · injection hsome with h2
    exact ⟨": missing required key \x27" ++ (k ++ "\x27"), by rw [← h2]; rfl⟩

/-- Shape of present-string-field errors. -/
theorem strField_shape {e : ValidationError} {m : YMap} {k file ctx : String}
    (h : e ∈ strFieldIfPresentErrs m k file ctx) :
    ∃ X, e.message = ctx ++ X ∧ X.data.take 3 ≠ [':', ' ', 'm'] := by
  unfold strFieldIfPresentErrs at h
  split at h
  · rw [List.mem_singleton] at h
    subst h
    refine ⟨": \x27" ++ (k ++ "\x27 must be a string"), rfl, ?_⟩
    rw [dataTakeAppend _ _ 3 (by decide)]
    decide
  · cases h

/-- Shape of present-integer-field errors. -/
theorem intField_shape {e : ValidationError} {m : YMap} {k file ctx : String}
    (h : e ∈ intFieldIfPresentErrs m k file ctx) :
    ∃ X, e.message = ctx ++ X ∧ X.data.take 3 ≠ [':', ' ', 'm'] := by
  unfold intFieldIfPresentErrs at h
  split at h
  · rw [List.mem_singleton] at h
    subst h
    refine ⟨": \x27" ++ (k ++ "\x27 must be an integer"), rfl, ?_⟩
    rw [dataTakeAppend _ _ 3 (by decide)]
    decide
  · cases h

/-- Shape of authors errors. -/
theorem authors_shape {e : ValidationError} {v : Yaml} {file ctx : String}
    (h : e ∈ authorsErrs v file ctx) :
    ∃ X, e.message = ctx ++ X ∧ X.data.take 3 ≠ [':', ' ', 'm'] := by
  unfold authorsErrs at h
  split at h
  · cases h
  · rw [List.mem_singleton] at h
    subst h
    exact ⟨": \x27authors\x27 must be a list of strings", rfl, by decide⟩

/-- Shape of enum errors. -/
theorem enum_shape {e : ValidationError} {field : String} {allowed : List String} {v : Yaml}
    {file ctx : String} (h : e ∈ enumErrs field allowed v file ctx) :
    ∃ X, e.message = ctx ++ X ∧ X.data.take 3 ≠ [':', ' ', 'm'] := by
  unfold enumErrs at h
  split at h
  · cases h
  · rw [List.mem_singleton] at h
    subst h
    refine ⟨": \x27" ++ (field ++ ("\x27 must be one of " ++
      (pyStrListRepr (sortStrs allowed) ++ (" (got " ++ (pyRepr v ++ ")"))))), rfl, ?_⟩
    rw [dataTakeAppend _ _ 3 (by decide)]
    decide

/-- Shape of optional-string-field errors. -/
theorem optStr_shape {e : ValidationError} {m : YMap} {k file ctx : String}
    (h : e ∈ optStrFieldErrs m k file ctx) :
    ∃ X, e.message = ctx ++ X ∧ X.data.take 3 ≠ [':', ' ', 'm'] := by
  unfold optStrFieldErrs at h
  split at h
  · rw [List.mem_singleton] at h
    subst h
    refine ⟨": \x27" ++ (k ++ "\x27 must be a string if present"), rfl, ?_⟩
    rw [dataTakeAppend _ _ 3 (by decide)]
    decide
  · cases h

/-- Shape of tags errors. -/
theorem tags_shape {e : ValidationError} {v : Yaml} {file ctx : String}
    (h : e ∈ validate_tags v file ctx) :
    ∃ X, e.message = ctx ++ X ∧ X.data.take 3 ≠ [':', ' ', 'm'] := by
  unfold validate_tags at h
  split at h
  · cases h
  · split at h
    · cases h
    · rw [List.mem_singleton] at h
      subst h
      exact ⟨": \x27tags\x27 must be a list of strings", rfl, by decide⟩

/-- Shape of path errors. -/
theorem path_shape {e : ValidationError} {v : Yaml} {file ctx : String}
    (h : e ∈ validate_path_field v file ctx) :
    ∃ X, e.message = ctx ++ X ∧ X.data.take 3 ≠ [':', ' ', 'm'] := by
  unfold validate_path_field at h
  split at h
  · split at h
    · rw [List.mem_singleton] at h
      subst h
      exact ⟨": \x27path\x27 must be a non-empty string", rfl, by decide⟩
    · split at h
      · rw [List.mem_singleton] at h
        subst h
        exact ⟨": \x27path\x27 should be a repo-relative path, not a URL", rfl, by decide⟩
      · cases h
  · rw [List.mem_singleton] at h
    subst h
    exact ⟨": \x27path\x27 must be a non-empty string", rfl, by decide⟩

/-- Shape of artifacts errors. -/
theorem artifacts_shape {e : ValidationError} {v : Yaml} {file ctx : String}
    (h : e ∈ artifactsErrs v file ctx) :
    ∃ X, e.message = ctx ++ X ∧ X.data.take 3 ≠ [':', ' ', 'm'] := by
  unfold artifactsErrs at h
  split at h
  · cases h
  · obtain ⟨p, _, hsome⟩ := List.mem_filterMap.mp h
    split at hsome
    · cases hsome
    · injection hsome with h2
      subst h2
      exact ⟨".artifacts: keys and values must be strings", rfl, by decide⟩
  · rw [List.mem_singleton] at h
    subst h
    exact ⟨": \x27artifacts\x27 must be a mapping if present", rfl, by decide⟩

/-- Shape of date errors, weak form. -/
theorem dateErrs_shape {er : ValidationError} {ev : YMap} {file ctx : String}
    (h : er ∈ dateErrs ev file ctx) : ∃ X, er.message = ctx ++ X := by
  unfold dateErrs at h
  split at h
  · split at h
    · cases h
    · rw [List.mem_singleton] at h
      subst h
      exact ⟨": \x27date\x27 must be YYYY-MM-DD (got " ++ (pyRepr (mapGet ev "date") ++ ")"), rfl⟩
  · cases h

/-- Shape of event errors: either a nested dotted-context message or the
not-a-mapping message; neither starts like a missing-key message of the
entry context. -/
theorem validateEvent_shape {er : ValidationError} {v : Yaml} {file ctx : String}
    (h : er ∈ validateEvent v file ctx) :
    ∃ X, er.message = ctx ++ X ∧ X.data.take 3 ≠ [':', ' ', 'm'] := by
  have hconv : ∀ X : String, er.message = (ctx ++ ".event") ++ X →
      ∃ Y, er.message = ctx ++ Y ∧ Y.data.take 3 ≠ [':', ' ', 'm'] := by
    intro X hX
    refine ⟨".event" ++ X, ?_, ?_⟩
    · rw [hX, String.append_assoc]
    · rw [dataTakeAppend _ _ 3 (by decide)]
      decide
  cases v
  case map ev =>
    simp only [validateEvent, List.append_assoc, List.mem_append] at h
    rcases h with h | h | h | h | h
    · obtain ⟨X, hX⟩ := require_keys_shape h
      exact hconv X hX
    · obtain ⟨X, hX, _⟩ := strField_shape h
      exact hconv X hX
    · obtain ⟨X, hX, _⟩ := strField_shape h
      exact hconv X hX
    · obtain ⟨X, hX⟩ := dateErrs_shape h
      exact hconv X hX
    · obtain ⟨X, hX, _⟩ := intField_shape h
      exact hconv X hX
  all_goals
    simp only [validateEvent, List.mem_singleton] at h
    subst h
    exact ⟨": \x27event\x27 must be a mapping", rfl, by decide⟩

/-- Shape of primary errors. -/
theorem primary_shape {e : ValidationError} {v : Yaml} {file ctx : String}
    (h : e ∈ primaryErrs v file ctx) :
    ∃ X, e.message = ctx ++ X ∧ X.data.take 3 ≠ [':', ' ', 'm'] := by
  unfold primaryErrs at h
  split at h
  · cases h
  · rw [List.mem_singleton] at h
    subst h
    exact ⟨": \x27primary\x27 must be boolean", rfl, by decide⟩

/-- Shape of related_repos errors. -/
theorem relatedRepos_shape {e : ValidationError} {v : Yaml} {file ctx : String}
    (h : e ∈ relatedReposErrs v file ctx) :
    ∃ X, e.message = ctx ++ X ∧ X.data.take 3 ≠ [':', ' ', 'm'] := by
  unfold relatedReposErrs at h
  split at h
  · cases h
  · rw [List.mem_singleton] at h
    subst h
    exact ⟨": \x27related_repos\x27 must be a list of \x27org/repo\x27 strings", rfl, by decide⟩

/-- Shape of optional paper tags errors. -/
theorem paperTags_shape {e : ValidationError} {m : YMap} {file ctx : String}
    (h : e ∈ paperTagsErrs m file ctx) :
    ∃ X, e.message = ctx ++ X ∧ X.data.take 3 ≠ [':', ' ', 'm'] := by
  unfold paperTagsErrs at h
  split at h
  · exact tags_shape h
  · cases h

/-- Shape of prerequisites errors. -/
theorem prereq_shape {e : ValidationError} {m : YMap} {file ctx : String}
    (h : e ∈ prerequisitesErrs m file ctx) :
    ∃ X, e.message = ctx ++ X ∧ X.data.take 3 ≠ [':', ' ', 'm'] := by
  unfold prerequisitesErrs at h
  split at h
  · split at h
    · cases h
    · rw [List.mem_singleton] at h
      subst h
      exact ⟨": \x27prerequisites\x27 must be a list of strings if present", rfl, by decide⟩
  · cases h

/-- For talks, an absent required key yields exactly one missing-key
error in the entry errors. -/
theorem count_talk_entry (file : String) (i : Nat) (m : YMap) (k : String)
    (hmem : k ∈ talksRequiredKeys) (habs : hasKey m k = false) :
    (validateTalkEntry file i (.map m)).count (missingKeyErr file (talkCtx i) k) = 1 := by
  have h1 := count_require_keys_mem m (talkCtx i) file k talksRequiredKeys hmem (by decide) habs
  have h2 : (strFieldIfPresentErrs m "id" file (talkCtx i)).count (missingKeyErr file (talkCtx i) k) = 0 :=
    count_zero_of_shapes (fun _ he => strField_shape he)
  have h3 : (strFieldIfPresentErrs m "title" file (talkCtx i)).count (missingKeyErr file (talkCtx i) k) = 0 :=
    count_zero_of_shapes (fun _ he => strField_shape he)
  have h4 : (authorsErrs (mapGet m "authors") file (talkCtx i)).count (missingKeyErr file (talkCtx i) k) = 0 :=
    count_zero_of_shapes (fun _ he => authors_shape he)
  have h5 : (strFieldIfPresentErrs m "role" file (talkCtx i)).count (missingKeyErr file (talkCtx i) k) = 0 :=
    count_zero_of_shapes (fun _ he => strField_shape he)
  have h6 : (validateEvent (mapGet m "event") file (talkCtx i)).count (missingKeyErr file (talkCtx i) k) = 0 :=
    count_zero_of_shapes (fun _ he => validateEvent_shape he)
  have h7 : (validate_path_field (mapGet m "path") file (talkCtx i)).count (missingKeyErr file (talkCtx i) k) = 0 :=
    count_zero_of_shapes (fun _ he => path_shape he)
  have h8 : (validate_tags (mapGet m "tags") file (talkCtx i)).count (missingKeyErr file (talkCtx i) k) = 0 :=
    count_zero_of_shapes (fun _ he => tags_shape he)
  have h9 : (enumErrs "status" TALK_STATUS (mapGet m "status") file (talkCtx i)).count (missingKeyErr file (talkCtx i) k) = 0 :=
    count_zero_of_shapes (fun _ he => enum_shape he)
  have h10 : (artifactsErrs (mapGet m "artifacts") file (talkCtx i)).count (missingKeyErr file (talkCtx i) k) = 0 :=
    count_zero_of_shapes (fun _ he => artifacts_shape he)
  have h11 : (optStrFieldErrs m "notes" file (talkCtx i)).count (missingKeyErr file (talkCtx i) k) = 0 :=
    count_zero_of_shapes (fun _ he => optStr_shape he)
  simp only [validateTalkEntry, List.count_append]
  rw [h1, h2, h3, h4, h5, h6, h7, h8, h9, h10, h11]

/-- For papers, an absent required key yields exactly one missing-key
error in the entry errors. -/
theorem count_paper_entry (file : String) (i : Nat) (m : YMap) (k : String)
    (hmem : k ∈ papersRequiredKeys) (habs : hasKey m k = false) :
    (validatePaperEntry file i (.map m)).count (missingKeyErr file (paperCtx i) k) = 1 := by
  have h1 := count_require_keys_mem m (paperCtx i) file k papersRequiredKeys hmem (by decide) habs
  have h2 : (strFieldIfPresentErrs m "id" file (paperCtx i)).count (missingKeyErr file (paperCtx i) k) = 0 :=
    count_zero_of_shapes (fun _ he => strField_shape he)
  have h3 : (strFieldIfPresentErrs m "title" file (paperCtx i)).count (missingKeyErr file (paperCtx i) k) = 0 :=
    count_zero_of_shapes (fun _ he => strField_shape he)
  have h4 : (authorsErrs (mapGet m "authors") file (paperCtx i)).count (missingKeyErr file (paperCtx i) k) = 0 :=
    count_zero_of_shapes (fun _ he => authors_shape he)
  have h5 : (intFieldIfPresentErrs m "year" file (paperCtx i)).count (missingKeyErr file (paperCtx i) k) = 0 :=
    count_zero_of_shapes (fun _ he => intField_shape he)
  have h6 : (strFieldIfPresentErrs m "venue" file (paperCtx i)).count (missingKeyErr file (paperCtx i) k) = 0 :=
    count_zero_of_shapes (fun _ he => strField_shape he)
  have h7 : (enumErrs "status" PAPER_STATUS (mapGet m "status") file (paperCtx i)).count (missingKeyErr file (paperCtx i) k) = 0 :=
    count_zero_of_shapes (fun _ he => enum_shape he)
  have h8 : (validate_path_field (mapGet m "path") file (paperCtx i)).count (missingKeyErr file (paperCtx i) k) = 0 :=
    count_zero_of_shapes (fun _ he => path_shape he)
  have h9 : (primaryErrs (mapGet m "primary") file (paperCtx i)).count (missingKeyErr file (paperCtx i) k) = 0 :=
    count_zero_of_shapes (fun _ he => primary_shape he)
  have h10 : (relatedReposErrs (mapGet m "related_repos") file (paperCtx i)).count (missingKeyErr file (paperCtx i) k) = 0 :=
    count_zero_of_shapes (fun _ he => relatedRepos_shape he)
  have h11 : (optStrFieldErrs m "doi" file (paperCtx i)).count (missingKeyErr file (paperCtx i) k) = 0 :=
    count_zero_of_shapes (fun _ he => optStr_shape he)
  have h12 : (optStrFieldErrs m "url" file (paperCtx i)).count (missingKeyErr file (paperCtx i) k) = 0 :=
    count_zero_of_shapes (fun _ he => optStr_shape he)
  have h13 : (optStrFieldErrs m "notes" file (paperCtx i)).count (missingKeyErr file (paperCtx i) k) = 0 :=
    count_zero_of_shapes (fun _ he => optStr_shape he)
  have h14 : (paperTagsErrs m file (paperCtx i)).count (missingKeyErr file (paperCtx i) k) = 0 :=
    count_zero_of_shapes (fun _ he => paperTags_shape he)
  simp only [validatePaperEntry, List.count_append]
  rw [h1, h2, h3, h4, h5, h6, h7, h8, h9, h10, h11, h12, h13, h14]

/-- For tutorials, an absent required key yields exactly one missing-key
error in the entry errors. -/
theorem count_tutorial_entry (file : String) (i : Nat) (m : YMap) (k : String)
    (hmem : k ∈ tutorialsRequiredKeys) (habs : hasKey m k = false) :
    (validateTutorialEntry file i (.map m)).count (missingKeyErr file (tutorialCtx i) k) = 1 := by
  have h1 := count_require_keys_mem m (tutorialCtx i) file k tutorialsRequiredKeys hmem (by decide) habs
  have h2 : (strFieldIfPresentErrs m "id" file (tutorialCtx i)).count (missingKeyErr file (tutorialCtx i) k) = 0 :=
    count_zero_of_shapes (fun _ he => strField_shape he)
  have h3 : (strFieldIfPresentErrs m "title" file (tutorialCtx i)).count (missingKeyErr file (tutorialCtx i) k) = 0 :=
    count_zero_of_shapes (fun _ he => strField_shape he)
  have h4 : (enumErrs "level" TUTORIAL_LEVEL (mapGet m "level") file (tutorialCtx i)).count (missingKeyErr file (tutorialCtx i) k) = 0 :=
    count_zero_of_shapes (fun _ he => enum_shape he)
  have h5 : (enumErrs "format" TUTORIAL_FORMAT (mapGet m "format") file (tutorialCtx i)).count (missingKeyErr file (tutorialCtx i) k) = 0 :=
    count_zero_of_shapes (fun _ he => enum_shape he)
  have h6 : (intFieldIfPresentErrs m "est_time_min" file (tutorialCtx i)).count (missingKeyErr file (tutorialCtx i) k) = 0 :=
    count_zero_of_shapes (fun _ he => intField_shape he)
  have h7 : (validate_path_field (mapGet m "path") file (tutorialCtx i)).count (missingKeyErr file (tutorialCtx i) k) = 0 :=
    count_zero_of_shapes (fun _ he => path_shape he)
  have h8 : (enumErrs "status" TUTORIAL_STATUS (mapGet m "status") file (tutorialCtx i)).count (missingKeyErr file (tutorialCtx i) k) = 0 :=
    count_zero_of_shapes (fun _ he => enum_shape he)
  have h9 : (validate_tags (mapGet m "tags") file (tutorialCtx i)).count (missingKeyErr file (tutorialCtx i) k) = 0 :=
    count_zero_of_shapes (fun _ he => tags_shape he)
  have h10 : (optStrFieldErrs m "notes" file (tutorialCtx i)).count (missingKeyErr file (tutorialCtx i) k) = 0 :=
    count_zero_of_shapes (fun _ he => optStr_shape he)
  have h11 : (prerequisitesErrs m file (tutorialCtx i)).count (missingKeyErr file (tutorialCtx i) k) = 0 :=
    count_zero_of_shapes (fun _ he => prereq_shape he)
  simp only [validateTutorialEntry, List.count_append]
  rw [h1, h2, h3, h4, h5, h6, h7, h8, h9, h10, h11]

/-- C3 counterexample: for a talk entry given as the empty mapping, the
absent path field receives both its missing-key error and the path
format-check error, contradicting the claim that no type, enum, or
format check is applied to an absent field. -/
theorem missing_path_also_format_checked :
    (validateTalkEntry "talks.yml" 0 (.map [])).count
        (missingKeyErr "talks.yml" (talkCtx 0) "path") = 1
    ∧ (validateTalkEntry "talks.yml" 0 (.map [])).count
        ⟨"talks.yml", "talks[0]: \x27path\x27 must be a non-empty string"⟩ = 1 := by
  refine ⟨by decide, by decide⟩

/-- C3 amended: for every mapping entry of every kind, omitting a
required key produces exactly one missing-key error naming that key and
the entry index, and the presence-guarded checks skip the absent field;
however, checks applied to the get default of the absent field (such as
the path check) can still add a differently worded error for it. -/
theorem missing_required_key_one_missing_error (file : String) (i : Nat) (m : YMap) (k : String) :
    (k ∈ talksRequiredKeys → hasKey m k = false →
      (validateTalkEntry file i (.map m)).count (missingKeyErr file (talkCtx i) k) = 1)
    ∧ (k ∈ papersRequiredKeys → hasKey m k = false →
      (validatePaperEntry file i (.map m)).count (missingKeyErr file (paperCtx i) k) = 1)
    ∧ (k ∈ tutorialsRequiredKeys → hasKey m k = false →
      (validateTutorialEntry file i (.map m)).count (missingKeyErr file (tutorialCtx i) k) = 1)
    ∧ (hasKey m k = false →
      strFieldIfPresentErrs m k file (talkCtx i) = []
      ∧ intFieldIfPresentErrs m k file (talkCtx i) = []
      ∧ optStrFieldErrs m k file (talkCtx i) = []) := by
  refine ⟨count_talk_entry file i m k, count_paper_entry file i m k,
          count_tutorial_entry file i m k, ?_⟩
  intro habs
  refine ⟨?_, ?_, ?_⟩
  · simp [strFieldIfPresentErrs, habs]
  · simp [intFieldIfPresentErrs, habs]
  · simp [optStrFieldErrs, habs]

/-- Witness for C3 at a concrete paper entry missing the year key. -/
theorem missing_required_key_one_missing_error_witness :
    ("year" ∈ papersRequiredKeys)
    ∧ hasKey [] "year" = false
    ∧ (validatePaperEntry "papers.yml" 0 (.map [])).count
        (missingKeyErr "papers.yml" (paperCtx 0) "year") = 1 :=
  ⟨by decide, by decide,
   (missing_required_key_one_missing_error "papers.yml" 0 [] "year").2.1 (by decide) (by decide)⟩
